import Mathlib

/-!
Verification development for the connector-x Python binding layer
(`connectorx/__init__.py`): connection-string rewriting, query
partitioning, `read_sql` dispatch to the native extraction engine, and
dataframe reconstruction.  Python strings are modelled as Lean `String`
(a list of characters); Python exceptions are modelled with `Except`.
The native extraction engine (`_read_sql`, `_read_sql2`, `_get_meta`,
`_partition_sql`) is not part of the sources; `read_sql` is therefore
modelled up to the exact call it hands to the engine, and the
partitioner is modelled from the specification (see `partition_sql`).
-/

/-- Python exceptions raised by the binding layer: `ValueError`,
`AssertionError` (failed `assert`), and `IndexError` (out-of-range
sequence indexing). -/
inductive PyError where
  | valueError (msg : String)
  | assertionError (msg : String)
  | indexError
deriving DecidableEq, Repr

deriving instance DecidableEq for Except

/-- `leadingMatch needle hay` is true when `needle` is an initial
segment of `hay` (character-wise). -/
def leadingMatch : List Char → List Char → Bool
  | [], _ => true
  | _ :: _, [] => false
  | a :: as, b :: bs => a = b && leadingMatch as bs

/-- `occursIn needle hay` is true when `needle` occurs as a contiguous
run of characters inside `hay` (the semantics of Python's `in` on
strings). -/
def occursIn (needle : List Char) : List Char → Bool
  | [] => leadingMatch needle []
  | c :: rest => leadingMatch needle (c :: rest) || occursIn needle rest

/-- Python's substring test `needle in hay`. -/
def strContains (hay needle : String) : Bool :=
  occursIn needle.data hay.data

/-- Split a character list at its first `:`; `none` when no colon is
present. -/
def splitAtFirstColon : List Char → Option (List Char × List Char)
  | [] => none
  | c :: cs =>
    if c = ':' then some ([], cs)
    else
      match splitAtFirstColon cs with
      | none => none
      | some (a, b) => some (c :: a, b)

/-- Python's `s.split(":", 1)` upacked into a pair `(backend, rest)`;
`none` models the `ValueError` the tuple unpacking raises when the
string has no colon (then `split` yields a one-element list). -/
def splitOnceColon (s : String) : Option (String × String) :=
  (splitAtFirstColon s.data).map fun p => (⟨p.1⟩, ⟨p.2⟩)

/-- `rewrite_conn` of `connectorx/__init__.py` (lines 50-67): when no
protocol is given (`if not protocol`, so `None` and the empty string
both count as absent), the backend part of the connection string (up to
the first `:`) is inspected: a backend containing `redshift` is
rewritten to `postgresql` with protocol `cursor`, one containing
`clickhouse` to `mysql` with protocol `text`, anything else keeps the
connection string and gets protocol `binary`; an empty connection
string is left alone with protocol `binary`.  A nonempty connection
string without a colon makes the tuple unpacking of
`conn.split(":", 1)` raise `ValueError`.  An explicitly given
(nonempty) protocol is returned unchanged together with the connection
string. -/
def rewrite_conn (conn : String) (protocol : Option String) :
    Except PyError (String × String) :=
  if protocol.getD "" = "" then
    if conn = "" then .ok (conn, "binary")
    else
      match splitOnceColon conn with
      | none => .error (.valueError "not enough values to unpack")
      | some (backend, details) =>
        if strContains backend "redshift" then
          .ok ("postgresql:" ++ details, "cursor")
        else if strContains backend "clickhouse" then
          .ok ("mysql:" ++ details, "text")
        else .ok (conn, "binary")
  else .ok (conn, protocol.getD "")

/-- Python's `query.endswith(";")`: the last character is a
semicolon. -/
def pyEndsWithSemicolon (s : String) : Bool :=
  match s.data.getLast? with
  | some c => c = ';'
  | none => false

/-- `remove_ending_semicolon` of `connectorx/__init__.py` (lines
478-490): drop the final character (`query[:-1]`) when the query ends
with `;`, otherwise return the query unchanged. -/
def remove_ending_semicolon (query : String) : String :=
  if pyEndsWithSemicolon query then ⟨query.data.dropLast⟩ else query

/-- The `partition_query` dictionary built by `read_sql` (lines
353-359) and `partition_sql` (lines 118-124) and handed to the native
engine. -/
structure PartitionQuery where
  query : String
  column : String
  lo : Option Int
  hi : Option Int
  num : Option Nat
deriving DecidableEq, Repr

/-- The exact invocation `read_sql` hands to the native extraction
engine: either `_read_sql(conn, return_type, queries=..., protocol=...,
partition_query=...)` (lines 375-381 and 397-403) or
`_read_sql2(query, conn)` for a federated call (line 331). -/
inductive EngineCall where
  | readSql (conn : String) (returnType : String)
      (queries : Option (List String)) (protocol : String)
      (partitionQuery : Option PartitionQuery)
  | readSql2 (query : String) (conn : List (String × String))
deriving DecidableEq, Repr

/-- The `query` argument of `read_sql`: a single SQL string or a list
of SQL strings. -/
inductive QueryArg where
  | s (q : String)
  | l (qs : List String)
deriving DecidableEq, Repr

/-- The `conn` argument of `read_sql`: a single connection string, or a
dict of named connection strings for a federated query (modelled as an
association list, after the `str` coercion of line 320). -/
inductive ConnArg where
  | s (c : String)
  | fed (m : List (String × String))
deriving DecidableEq, Repr

/-- Lines 315-317 of `read_sql`: a one-element query list is unwrapped
into its single string, with one trailing semicolon removed. -/
def normalizeQuery : QueryArg → QueryArg
  | .l [q] => .s (remove_ending_semicolon q)
  | q => q

/-- The return-type dispatch of `read_sql` (lines 372-413): `modin`,
`dask` and `pandas` call the engine with return type `pandas`;
`arrow`, `arrow2`, `polars` and `polars2` call it with `arrow` or
`arrow2`; any other return type raises `ValueError(return_type)`. -/
def engine_dispatch (conn rt : String) (queries : Option (List String))
    (proto : String) (pq : Option PartitionQuery) :
    Except PyError EngineCall :=
  if rt = "modin" ∨ rt = "dask" ∨ rt = "pandas" then
    .ok (.readSql conn "pandas" queries proto pq)
  else if rt = "arrow" ∨ rt = "arrow2" ∨ rt = "polars" ∨ rt = "polars2" then
    .ok (.readSql conn (if rt = "arrow" then "arrow" else "arrow2") queries proto pq)
  else .error (.valueError rt)

/-- The single-string path of `read_sql`, after the query has had its
trailing semicolon removed (federated branch lines 319-343 with its two
`assert`s, else lines 346-359 building `queries`/`partition_query`,
then `rewrite_conn` at line 370 and the engine dispatch).  The
federated branch strips the semicolon at line 329 and the plain branch
at line 347; both strips are hoisted into `read_sql` below, so `q2`
arrives here already stripped once. -/
def dispatch_single (conn : ConnArg) (q2 rt : String)
    (proto : Option String) (pn : Option String)
    (pr : Option (Int × Int)) (pnum : Option Nat) :
    Except PyError EngineCall :=
  match conn with
  | .fed m =>
    if pn.isSome then
      .error (.assertionError "Federated query does not support query partitioning for now")
    else if proto.isSome then
      .error (.assertionError "Federated query does not support specifying protocol for now")
    else .ok (.readSql2 q2 m)
  | .s cs =>
    match pn with
    | none =>
      match rewrite_conn cs proto with
      | .error e => .error e
      | .ok (c2, p2) => engine_dispatch c2 rt (some [q2]) p2 none
    | some col =>
      match rewrite_conn cs proto with
      | .error e => .error e
      | .ok (c2, p2) =>
        engine_dispatch c2 rt none p2
          (some ⟨q2, col, pr.map Prod.fst, pr.map Prod.snd, pnum⟩)

/-- The list-of-queries path of `read_sql` (a list whose length is not
one, since one-element lists are unwrapped first): a federated `conn`
fails the `assert ... isinstance(query, str)` of lines 322-324; a plain
`conn` strips each element (line 362), raises `ValueError` when
`partition_on` is set (lines 365-366), and otherwise dispatches the
stripped list. -/
def dispatch_list (conn : ConnArg) (qs : List String) (rt : String)
    (proto : Option String) (pn : Option String) :
    Except PyError EngineCall :=
  match conn with
  | .fed _ =>
    .error (.assertionError "Federated query does not support query partitioning for now")
  | .s cs =>
    if pn.isSome then
      .error (.valueError "Partition on multiple queries is not supported.")
    else
      match rewrite_conn cs proto with
      | .error e => .error e
      | .ok (c2, p2) =>
        engine_dispatch c2 rt (some (qs.map remove_ending_semicolon)) p2 none

/-- `read_sql` of `connectorx/__init__.py` (lines 258-415), modelled up
to the call handed to the native extraction engine (the reconstruction
of the returned buffers is modelled separately by `reconstruct_arrow`
and `reconstruct_pandas`).  Arguments follow the Python signature:
connection, query, `return_type` (default `"pandas"`), `protocol`,
`partition_on`, `partition_range`, `partition_num`. -/
def read_sql (conn : ConnArg) (query : QueryArg) (rt : String)
    (proto : Option String) (pn : Option String)
    (pr : Option (Int × Int)) (pnum : Option Nat) :
    Except PyError EngineCall :=
  match normalizeQuery query with
  | .s qstr => dispatch_single conn (remove_ending_semicolon qstr) rt proto pn pr pnum
  | .l qs => dispatch_list conn qs rt proto pn

/-- The invocation `get_meta` hands to the native `_get_meta` (line
90): rewritten connection string, chosen protocol, query. -/
structure GetMetaCall where
  conn : String
  protocol : String
  query : String
deriving DecidableEq, Repr

/-- `get_meta` of `connectorx/__init__.py` (lines 70-92), modelled up
to the `_get_meta` call: the connection string and protocol go through
`rewrite_conn`, the query is passed as given. -/
def get_meta (conn : String) (query : String) (protocol : Option String) :
    Except PyError GetMetaCall :=
  match rewrite_conn conn protocol with
  | .error e => .error e
  | .ok (c2, p2) => .ok ⟨c2, p2, query⟩

/-- The boundary predicate a generated sub-query places on the
partition column: no predicate at all (`num == 1`), `col < hi` (first
partition, unbounded below), `lo <= col < hi` (middle partitions), or
`lo <= col <= hi` (last partition, closed at the range maximum). -/
inductive RangePred where
  | all
  | ltU (hi : Int)
  | geLt (lo hi : Int)
  | geLe (lo hi : Int)
deriving DecidableEq, Repr

/-- A generated sub-query: the wrapped original query, the partition
column, and the boundary predicate injected on that column. -/
structure SubQuery where
  query : String
  column : String
  pred : RangePred
deriving DecidableEq, Repr

/-- Modelled from the spec: the native `_partition_sql` of the
extraction engine (the Rust partitioner behind the Python wrapper of
lines 95-125) is not among the sources.  Per spec section 4.1 it
computes `num` contiguous, non-overlapping ranges of width
`ceil((max-min+1)/num)` over the explicit range `[mn, mx]`; the first
partition is unbounded below, the last is closed at `mx` (section 8
scenario: `id<26`, `26<=id<51`, `51<=id<76`, `76<=id<=100`); `num == 1`
returns the original query unmodified with no predicate injected.  The
ceiling division is written `(mx - mn + num) / num`, which agrees with
`ceil((mx - mn + 1) / num)` for `mn <= mx` and `num >= 1`. -/
def partition_sql (query : String) (partition_on : String)
    (partition_num : Nat) (mn mx : Int) : List SubQuery :=
  if partition_num = 1 then [⟨query, partition_on, .all⟩]
  else
    let width : Int := (mx - mn + (partition_num : Int)) / (partition_num : Int)
    (List.range partition_num).map fun i =>
      if i = 0 then ⟨query, partition_on, .ltU (mn + width)⟩
      else if i = partition_num - 1 then
        ⟨query, partition_on, .geLe (mn + (i : Int) * width) mx⟩
      else
        ⟨query, partition_on, .geLt (mn + (i : Int) * width) (mn + ((i : Int) + 1) * width)⟩

/-- Whether a value of the partition column satisfies a boundary
predicate. -/
def RangePred.holds : RangePred → Int → Bool
  | .all, _ => true
  | .ltU hi, v => v < hi
  | .geLt lo hi, v => lo ≤ v && v < hi
  | .geLe lo hi, v => lo ≤ v && v ≤ hi

/-- Modelled from the spec: executing one sub-query of the (missing)
extraction engine against a table, abstracted to the multiset of
partition-column values of its rows — the sub-query keeps exactly the
rows satisfying its boundary predicate (section 4.1). -/
def runSubQuery (rows : List Int) (sq : SubQuery) : List Int :=
  rows.filter fun v => sq.pred.holds v

/-- Modelled from the spec: the engine runs every sub-query and
concatenates the per-partition results in ordinal order (sections 4.2
and 4.4). -/
def runPartitions (rows : List Int) (sqs : List SubQuery) : List Int :=
  (sqs.map (runSubQuery rows)).flatten

/-- `normalizeQuery` keeps a single string unchanged. -/
theorem normalizeQuery_s (q : String) : normalizeQuery (.s q) = .s q := rfl

/-- `normalizeQuery` keeps a query list unchanged when its length is
not one. -/
theorem normalizeQuery_ne_one (qs : List String) (hq : qs.length ≠ 1) :
    normalizeQuery (.l qs) = .l qs := by
  cases qs with
  | nil => rfl
  | cons a t =>
    cases t with
    | nil => exact absurd rfl hq
    | cons b t2 => rfl

/-- A query with no trailing semicolon passes through
`remove_ending_semicolon` unchanged. -/
theorem remove_no_semi (q : String) (h : pyEndsWithSemicolon q = false) :
    remove_ending_semicolon q = q := by
  unfold remove_ending_semicolon
  simp [h]

/-- `remove_ending_semicolon` drops exactly the final semicolon. -/
theorem remove_push_semi (s : String) : remove_ending_semicolon (s.push ';') = s := by
  cases s with
  | mk l =>
    show remove_ending_semicolon ⟨l ++ [';']⟩ = ⟨l⟩
    unfold remove_ending_semicolon pyEndsWithSemicolon
    simp [List.getLast?_concat, List.dropLast_concat]

/-- The return-type dispatch at return type `pandas` calls the engine
with return type `pandas`. -/
theorem engine_dispatch_pandas (c2 : String) (qs : Option (List String)) (p2 : String)
    (pq : Option PartitionQuery) :
    engine_dispatch c2 "pandas" qs p2 pq = .ok (.readSql c2 "pandas" qs p2 pq) := rfl

/-- The single-string, no-partition path of `read_sql`: one semicolon
strip, `rewrite_conn`, and the engine receives the stripped query as
the only element of `queries`. -/
theorem read_sql_single_path (cs q rt : String) (proto : Option String) (c2 p2 : String)
    (hrw : rewrite_conn cs proto = .ok (c2, p2)) :
    read_sql (.s cs) (.s q) rt proto none none none
      = engine_dispatch c2 rt (some [remove_ending_semicolon q]) p2 none := by
  show dispatch_single (.s cs) (remove_ending_semicolon q) rt proto none none none = _
  simp only [dispatch_single, hrw]

/-- The single-string, partitioned path of `read_sql`: the engine
receives no `queries` and a `partition_query` built from the stripped
query, the partition column, the optional range bounds and the
partition count. -/
theorem read_sql_partition_path (cs q rt : String) (proto : Option String) (c2 p2 col : String)
    (pr : Option (Int × Int)) (pnum : Option Nat)
    (hrw : rewrite_conn cs proto = .ok (c2, p2)) :
    read_sql (.s cs) (.s q) rt proto (some col) pr pnum
      = engine_dispatch c2 rt none p2
          (some ⟨remove_ending_semicolon q, col, pr.map Prod.fst, pr.map Prod.snd, pnum⟩) := by
  show dispatch_single (.s cs) (remove_ending_semicolon q) rt proto (some col) pr pnum = _
  simp only [dispatch_single, hrw]

/-- The list path of `read_sql` (length not one, no partitioning): the
engine receives the given queries in order, each stripped of one
trailing semicolon. -/
theorem read_sql_list_path (cs : String) (qs : List String) (rt : String)
    (proto : Option String) (c2 p2 : String)
    (hq : qs.length ≠ 1) (hrw : rewrite_conn cs proto = .ok (c2, p2)) :
    read_sql (.s cs) (.l qs) rt proto none none none
      = engine_dispatch c2 rt (some (qs.map remove_ending_semicolon)) p2 none := by
  unfold read_sql
  rw [normalizeQuery_ne_one qs hq]
  show dispatch_list (.s cs) qs rt proto none = _
  simp only [dispatch_list, Option.isSome_none, Bool.false_eq_true, if_false, hrw]

/-- `rewrite_conn` without a caller protocol picks `binary` and leaves
the connection string alone whenever the backend (the part before the
first colon) mentions neither `redshift` nor `clickhouse`. -/
theorem rewrite_conn_default (conn b d : String)
    (hs : splitOnceColon conn = some (b, d))
    (hr : strContains b "redshift" = false)
    (hcl : strContains b "clickhouse" = false) :
    rewrite_conn conn none = .ok (conn, "binary") := by
  have hne : conn ≠ "" := by
    intro h0
    rw [h0] at hs
    simp [splitOnceColon, splitAtFirstColon] at hs
  unfold rewrite_conn
  simp [hne, hs, hr, hcl]

/-- C1: the call `partition_sql` with query `SELECT id, amount FROM t`,
partition column `id`, partition number 4 and range `(1, 100)` returns
exactly four sub-queries whose boundary predicates are `id < 26`,
`26 <= id < 51`, `51 <= id < 76` and `76 <= id <= 100` — four
contiguous, non-overlapping ranges of width
`ceil((100 - 1 + 1) / 4) = 25`, the first unbounded below. -/
theorem C1_partition_four :
    partition_sql "SELECT id, amount FROM t" "id" 4 1 100 =
      [⟨"SELECT id, amount FROM t", "id", .ltU 26⟩,
       ⟨"SELECT id, amount FROM t", "id", .geLt 26 51⟩,
       ⟨"SELECT id, amount FROM t", "id", .geLt 51 76⟩,
       ⟨"SELECT id, amount FROM t", "id", .geLe 76 100⟩] := by decide

/-- C2: for every query, partition column and range, partitioning with
`num = 1` returns the original query unmodified as the single
sub-query, with no range predicate injected, so running the partitions
returns exactly the rows of the unpartitioned query. -/
theorem C2_num_one (query column : String) (mn mx : Int) (rows : List Int) :
    partition_sql query column 1 mn mx = [⟨query, column, .all⟩] ∧
    runPartitions rows (partition_sql query column 1 mn mx) = rows := by
  refine ⟨rfl, ?_⟩
  show (List.map (runSubQuery rows) [⟨query, column, .all⟩]).flatten = rows
  simp [runSubQuery, RangePred.holds]

/-- C3 counterexample: a one-element query list combined with a
non-`None` `partition_on` does not raise — the list is unwrapped and
range partitioning is applied, so the claim that every (list,
partition_on) combination fails with a configuration error is false. -/
theorem C3_counterexample :
    read_sql (.s "postgresql://h") (.l ["SELECT 1"]) "pandas" none
        (some "id") (some (1, 100)) (some 4)
      = .ok (.readSql "postgresql://h" "pandas" none "binary"
          (some ⟨"SELECT 1", "id", some 1, some 100, some 4⟩)) := by decide

/-- C3 (amended): for every call of `read_sql` that supplies a list of
pre-split queries whose length is not one together with a non-`None`
`partition_on`, the call fails with a configuration error — the
`ValueError` of line 366 for a plain connection, the federated
`AssertionError` of lines 322-324 for a dict connection — before
`rewrite_conn` runs and before any engine call is produced. -/
theorem C3_list_partition_error (conn : ConnArg) (qs : List String) (rt : String)
    (proto : Option String) (col : String) (pr : Option (Int × Int)) (pnum : Option Nat)
    (hq : qs.length ≠ 1) :
    (∀ cs, conn = ConnArg.s cs →
        read_sql conn (.l qs) rt proto (some col) pr pnum
          = .error (.valueError "Partition on multiple queries is not supported."))
    ∧ (∀ m, conn = ConnArg.fed m →
        read_sql conn (.l qs) rt proto (some col) pr pnum
          = .error (.assertionError
              "Federated query does not support query partitioning for now")) := by
  cases qs with
  | nil =>
    exact ⟨fun cs hc => by subst hc; rfl, fun m hc => by subst hc; rfl⟩
  | cons a t =>
    cases t with
    | nil => simp at hq
    | cons b t2 =>
      exact ⟨fun cs hc => by subst hc; rfl, fun m hc => by subst hc; rfl⟩

/-- C3 witness. -/
theorem C3_witness :
    ((["SELECT a FROM t", "SELECT b FROM t"] : List String).length ≠ 1) ∧
    (read_sql (.s "postgresql://h") (.l ["SELECT a FROM t", "SELECT b FROM t"])
        "pandas" none (some "id") none none
      = .error (.valueError "Partition on multiple queries is not supported.")
    ∧ read_sql (.fed [("db1", "postgresql://h")])
          (.l ["SELECT a FROM t", "SELECT b FROM t"]) "pandas" none (some "id") none none
        = .error (.assertionError
            "Federated query does not support query partitioning for now")) :=
  ⟨by decide,
   (C3_list_partition_error (.s "postgresql://h") ["SELECT a FROM t", "SELECT b FROM t"]
       "pandas" none "id" none none (by decide)).1 "postgresql://h" rfl,
   (C3_list_partition_error (.fed [("db1", "postgresql://h")])
       ["SELECT a FROM t", "SELECT b FROM t"]
       "pandas" none "id" none none (by decide)).2 [("db1", "postgresql://h")] rfl⟩

/-- C4: for every federated call of `read_sql` (connection given as a
dict of named sources), supplying a non-`None` `partition_on` or a
non-`None` `protocol` makes the call fail with an error (a failed
`assert`) before any federated engine call is produced. -/
theorem C4_federated_guards (m : List (String × String)) (q : QueryArg) (rt : String)
    (proto : Option String) (pn : Option String) (pr : Option (Int × Int)) (pnum : Option Nat)
    (h : pn ≠ none ∨ proto ≠ none) :
    ∃ e, read_sql (.fed m) q rt proto pn pr pnum = .error e := by
  have hdisp : ∀ q2, ∃ e, dispatch_single (.fed m) q2 rt proto pn pr pnum = .error e := by
    intro q2
    cases pn with
    | some col => exact ⟨_, rfl⟩
    | none =>
      cases proto with
      | some p => exact ⟨_, rfl⟩
      | none => rcases h with h | h <;> exact absurd rfl h
  cases q with
  | s qs => exact hdisp _
  | l qs =>
    cases qs with
    | nil => exact ⟨_, rfl⟩
    | cons a t =>
      cases t with
      | nil => exact hdisp _
      | cons b t2 => exact ⟨_, rfl⟩

/-- C4 witness. -/
theorem C4_witness :
    ((some "id" : Option String) ≠ none ∨ (none : Option String) ≠ none) ∧
    ∃ e, read_sql (.fed [("db1", "postgresql://h")]) (.s "SELECT 1") "pandas" none
        (some "id") none none = .error e :=
  ⟨Or.inl (by decide),
   C4_federated_guards [("db1", "postgresql://h")] (.s "SELECT 1") "pandas" none
     (some "id") none none (Or.inl (by decide))⟩

/-- C5 counterexample: a two-element query list whose elements end in a
semicolon is not handed to the engine verbatim — each element loses its
trailing semicolon first. -/
theorem C5_counterexample :
    read_sql (.s "postgresql://h") (.l ["SELECT a FROM t;", "SELECT b FROM t;"])
        "pandas" none none none none
      = .ok (.readSql "postgresql://h" "pandas"
          (some ["SELECT a FROM t", "SELECT b FROM t"]) "binary" none)
    ∧ (["SELECT a FROM t", "SELECT b FROM t"] : List String)
        ≠ ["SELECT a FROM t;", "SELECT b FROM t;"] := by decide

/-- C5 (amended): for every call of `read_sql` with a list of query
strings whose length is not one and `partition_on` absent, partitioning
is skipped entirely (`partition_query` is `None`) and the listed
queries are handed to the extraction engine in the given order, each
after removal of at most one trailing semicolon. -/
theorem C5_list_verbatim (conn : String) (qs : List String) (proto : Option String)
    (c2 p2 : String) (hq : qs.length ≠ 1)
    (hrw : rewrite_conn conn proto = .ok (c2, p2)) :
    read_sql (.s conn) (.l qs) "pandas" proto none none none
      = .ok (.readSql c2 "pandas" (some (qs.map remove_ending_semicolon)) p2 none) := by
  rw [read_sql_list_path conn qs "pandas" proto c2 p2 hq hrw, engine_dispatch_pandas]

/-- C5 witness. -/
theorem C5_witness :
    ((["SELECT a;", "SELECT b"] : List String).length ≠ 1
      ∧ rewrite_conn "postgresql://h" none = .ok ("postgresql://h", "binary")) ∧
    read_sql (.s "postgresql://h") (.l ["SELECT a;", "SELECT b"]) "pandas" none none none none
      = .ok (.readSql "postgresql://h" "pandas" (some ["SELECT a", "SELECT b"]) "binary" none) :=
  ⟨⟨by decide, by decide⟩,
   C5_list_verbatim "postgresql://h" ["SELECT a;", "SELECT b"] none
     "postgresql://h" "binary" (by decide) (by decide)⟩

/-- C6 counterexample: with no caller protocol, a redshift connection
string gets protocol `cursor` (and a rewritten backend), not
`binary`. -/
theorem C6_counterexample :
    read_sql (.s "redshift://h") (.s "SELECT 1") "pandas" none none none none
      = .ok (.readSql "postgresql://h" "pandas" (some ["SELECT 1"]) "cursor" none)
    ∧ ("cursor" : String) ≠ "binary" := by decide

/-- C6 (amended): for every non-federated call of `read_sql` or
`get_meta` where the caller does not specify a protocol and the backend
part of the connection string (before the first colon) contains neither
`redshift` nor `clickhouse`, the `binary` protocol is selected and
passed to the extraction engine (backends containing `redshift` get
`cursor`, ones containing `clickhouse` get `text`; federated calls pass
no protocol at all). -/
theorem C6_default_binary (conn q b d : String)
    (hs : splitOnceColon conn = some (b, d))
    (hr : strContains b "redshift" = false)
    (hcl : strContains b "clickhouse" = false) :
    read_sql (.s conn) (.s q) "pandas" none none none none
      = .ok (.readSql conn "pandas" (some [remove_ending_semicolon q]) "binary" none)
    ∧ get_meta conn q none = .ok ⟨conn, "binary", q⟩ := by
  have hrw : rewrite_conn conn none = .ok (conn, "binary") :=
    rewrite_conn_default conn b d hs hr hcl
  constructor
  · rw [read_sql_single_path conn q "pandas" none conn "binary" hrw, engine_dispatch_pandas]
  · simp only [get_meta, hrw]

/-- C6 witness. -/
theorem C6_witness :
    (splitOnceColon "postgresql://u@h/db" = some ("postgresql", "//u@h/db")
      ∧ strContains "postgresql" "redshift" = false
      ∧ strContains "postgresql" "clickhouse" = false) ∧
    (read_sql (.s "postgresql://u@h/db") (.s "SELECT 1") "pandas" none none none none
        = .ok (.readSql "postgresql://u@h/db" "pandas" (some ["SELECT 1"]) "binary" none)
      ∧ get_meta "postgresql://u@h/db" "SELECT 1" none
        = .ok ⟨"postgresql://u@h/db", "binary", "SELECT 1"⟩) :=
  ⟨⟨by decide, by decide, by decide⟩,
   C6_default_binary "postgresql://u@h/db" "SELECT 1" "postgresql" "//u@h/db"
     (by decide) (by decide) (by decide)⟩

/-- C8 counterexample: a nonempty connection string with no colon is
not returned unchanged with protocol `binary` — the tuple unpacking of
`conn.split(":", 1)` raises `ValueError`. -/
theorem C8_counterexample :
    rewrite_conn "foo" none = .error (.valueError "not enough values to unpack")
    ∧ rewrite_conn "foo" none
        ≠ .ok (("foo" : String), ("binary" : String)) := by decide

/-- C8 (amended): `rewrite_conn` with no protocol rewrites a connection
string whose backend (before the first colon) contains `redshift` to
`postgresql` with protocol `cursor` and one containing `clickhouse` to
`mysql` with protocol `text`; every other connection string containing
a colon (and the empty string) is returned unchanged with protocol
`binary`; a nonempty string without a colon raises `ValueError`; and a
nonempty explicitly supplied protocol is returned unchanged together
with the connection string. -/
theorem C8_rewrite_conn (conn b d p : String) :
    (p ≠ "" → rewrite_conn conn (some p) = .ok (conn, p))
    ∧ rewrite_conn "" none = .ok ("", "binary")
    ∧ (splitOnceColon conn = none → conn ≠ "" →
        rewrite_conn conn none = .error (.valueError "not enough values to unpack"))
    ∧ (splitOnceColon conn = some (b, d) →
        (strContains b "redshift" = true →
          rewrite_conn conn none = .ok ("postgresql:" ++ d, "cursor"))
        ∧ (strContains b "redshift" = false → strContains b "clickhouse" = true →
            rewrite_conn conn none = .ok ("mysql:" ++ d, "text"))
        ∧ (strContains b "redshift" = false → strContains b "clickhouse" = false →
            rewrite_conn conn none = .ok (conn, "binary"))) := by
  refine ⟨?_, rfl, ?_, ?_⟩
  · intro hp
    unfold rewrite_conn
    simp [hp]
  · intro hs hne
    unfold rewrite_conn
    simp [hne, hs]
  · intro hs
    refine ⟨?_, ?_, ?_⟩ <;> intro h1
    · have hne : conn ≠ "" := by
        intro h0
        rw [h0] at hs
        simp [splitOnceColon, splitAtFirstColon] at hs
      unfold rewrite_conn
      simp [hne, hs, h1]
    · intro h2
      have hne : conn ≠ "" := by
        intro h0
        rw [h0] at hs
        simp [splitOnceColon, splitAtFirstColon] at hs
      unfold rewrite_conn
      simp [hne, hs, h1, h2]
    · intro h2
      exact rewrite_conn_default conn b d hs h1 h2

/-- C8 witness. -/
theorem C8_witness :
    (("csv" : String) ≠ ""
      ∧ splitOnceColon "redshift://u" = some ("redshift", "//u")
      ∧ strContains "redshift" "redshift" = true) ∧
    (rewrite_conn "redshift://u" (some "csv") = .ok ("redshift://u", "csv")
      ∧ rewrite_conn "redshift://u" none = .ok ("postgresql://u", "cursor")) :=
  ⟨⟨by decide, by decide, by decide⟩,
   (C8_rewrite_conn "redshift://u" "redshift" "//u" "csv").1 (by decide),
   ((C8_rewrite_conn "redshift://u" "redshift" "//u" "csv").2.2.2 (by decide)).1 (by decide)⟩

/-- C9 counterexample: wrapping a query ending in two semicolons into a
one-element list is observably different from passing the string
itself — the list form is stripped twice. -/
theorem C9_counterexample :
    read_sql (.s "postgresql://h") (.l ["SELECT 1;;"]) "pandas" none none none none
      ≠ read_sql (.s "postgresql://h") (.s "SELECT 1;;") "pandas" none none none none := by
  decide

/-- C9 (amended): a one-element query list `[q]` behaves exactly like
the single string `remove_ending_semicolon q`; when one strip leaves no
trailing semicolon (q does not end in `;;`) this coincides with the
single string `q`; and combining a one-element list with a non-`None`
`partition_on` does not raise — range partitioning is applied to the
(twice-stripped) query. -/
theorem C9_singleton_list (conn : ConnArg) (q rt : String) (proto : Option String) :
    (∀ pn pr pnum, read_sql conn (.l [q]) rt proto pn pr pnum
        = read_sql conn (.s (remove_ending_semicolon q)) rt proto pn pr pnum)
    ∧ (pyEndsWithSemicolon (remove_ending_semicolon q) = false →
        ∀ pn pr pnum, read_sql conn (.l [q]) rt proto pn pr pnum
          = read_sql conn (.s q) rt proto pn pr pnum)
    ∧ (∀ cs c2 p2 col lo hi n, conn = ConnArg.s cs →
        rewrite_conn cs proto = .ok (c2, p2) →
        read_sql conn (.l [q]) "pandas" proto (some col) (some (lo, hi)) (some n)
          = .ok (.readSql c2 "pandas" none p2
              (some ⟨remove_ending_semicolon (remove_ending_semicolon q),
                     col, some lo, some hi, some n⟩))) := by
  refine ⟨fun pn pr pnum => rfl, ?_, ?_⟩
  · intro hsem pn pr pnum
    show dispatch_single conn (remove_ending_semicolon (remove_ending_semicolon q))
          rt proto pn pr pnum
        = dispatch_single conn (remove_ending_semicolon q) rt proto pn pr pnum
    rw [remove_no_semi (remove_ending_semicolon q) hsem]
  · intro cs c2 p2 col lo hi n hconn hrw
    subst hconn
    show dispatch_single (.s cs) (remove_ending_semicolon (remove_ending_semicolon q))
          "pandas" proto (some col) (some (lo, hi)) (some n) = _
    simp only [dispatch_single, hrw]
    rfl

/-- C9 witness. -/
theorem C9_witness :
    (pyEndsWithSemicolon (remove_ending_semicolon "SELECT 1;") = false
      ∧ (ConnArg.s "postgresql://h") = ConnArg.s "postgresql://h"
      ∧ rewrite_conn "postgresql://h" none = .ok ("postgresql://h", "binary")) ∧
    (read_sql (.s "postgresql://h") (.l ["SELECT 1;"]) "pandas" none none none none
        = read_sql (.s "postgresql://h") (.s "SELECT 1;") "pandas" none none none none
      ∧ read_sql (.s "postgresql://h") (.l ["SELECT 1;"]) "pandas" none
            (some "id") (some (1, 100)) (some 4)
          = .ok (.readSql "postgresql://h" "pandas" none "binary"
              (some ⟨"SELECT 1", "id", some 1, some 100, some 4⟩))) :=
  ⟨⟨by decide, rfl, by decide⟩,
   (C9_singleton_list (.s "postgresql://h") "SELECT 1;" "pandas" none).2.1
     (by decide) none none none,
   by
     have h3 := (C9_singleton_list (.s "postgresql://h") "SELECT 1;" "pandas" none).2.2
       "postgresql://h" "postgresql://h" "binary" "id" 1 100 4 rfl (by decide)
     simpa using h3⟩

/-- C10 counterexample: a one-element query list is stripped twice, so
`read_sql` does not apply `remove_ending_semicolon` exactly once to
each incoming query — the engine receives `SELECT 2` for the input list
`["SELECT 2;;"]`, not the once-stripped `SELECT 2;`. -/
theorem C10_counterexample :
    read_sql (.s "postgresql://h") (.l ["SELECT 2;;"]) "pandas" none none none none
      = .ok (.readSql "postgresql://h" "pandas" (some ["SELECT 2"]) "binary" none)
    ∧ ("SELECT 2" : String) ≠ remove_ending_semicolon "SELECT 2;;" := by decide

/-- C10 (amended): `remove_ending_semicolon` removes exactly the final
character when the query ends with `;` and is the identity otherwise;
`read_sql` applies it exactly once to a single incoming query string,
to each element of a query list whose length is not one, and to the
federated query — so such a query ending in several semicolons keeps
all but the last one — but a one-element query list is stripped twice
(once while being unwrapped, once on the single-string path). -/
theorem C10_strip_once (q cs : String) (qs : List String) (m : List (String × String))
    (proto : Option String) (c2 p2 : String) :
    (∀ s, remove_ending_semicolon (s.push ';') = s)
    ∧ (pyEndsWithSemicolon q = false → remove_ending_semicolon q = q)
    ∧ (rewrite_conn cs proto = .ok (c2, p2) →
        read_sql (.s cs) (.s q) "pandas" proto none none none
          = .ok (.readSql c2 "pandas" (some [remove_ending_semicolon q]) p2 none))
    ∧ (qs.length ≠ 1 → rewrite_conn cs proto = .ok (c2, p2) →
        read_sql (.s cs) (.l qs) "pandas" proto none none none
          = .ok (.readSql c2 "pandas" (some (qs.map remove_ending_semicolon)) p2 none))
    ∧ (read_sql (.fed m) (.s q) "pandas" none none none none
        = .ok (.readSql2 (remove_ending_semicolon q) m))
    ∧ (rewrite_conn cs proto = .ok (c2, p2) →
        read_sql (.s cs) (.l [q]) "pandas" proto none none none
          = .ok (.readSql c2 "pandas"
              (some [remove_ending_semicolon (remove_ending_semicolon q)]) p2 none)) := by
  refine ⟨remove_push_semi, remove_no_semi q, ?_, ?_, rfl, ?_⟩
  · intro hrw
    rw [read_sql_single_path cs q "pandas" proto c2 p2 hrw, engine_dispatch_pandas]
  · intro hq hrw
    rw [read_sql_list_path cs qs "pandas" proto c2 p2 hq hrw, engine_dispatch_pandas]
  · intro hrw
    show dispatch_single (.s cs) (remove_ending_semicolon (remove_ending_semicolon q))
        "pandas" proto none none none = _
    simp only [dispatch_single, hrw]
    rfl

/-- C10 witness. -/
theorem C10_witness :
    (pyEndsWithSemicolon "SELECT x" = false
      ∧ (["SELECT u;", "SELECT v;"] : List String).length ≠ 1
      ∧ rewrite_conn "mysql://h" none = .ok ("mysql://h", "binary")) ∧
    (remove_ending_semicolon (String.push "SELECT x" ';') = "SELECT x"
      ∧ remove_ending_semicolon "SELECT x" = "SELECT x"
      ∧ read_sql (.s "mysql://h") (.s "SELECT x;") "pandas" none none none none
          = .ok (.readSql "mysql://h" "pandas"
              (some [remove_ending_semicolon "SELECT x;"]) "binary" none)
      ∧ read_sql (.s "mysql://h") (.l ["SELECT u;", "SELECT v;"]) "pandas" none none none none
          = .ok (.readSql "mysql://h" "pandas"
              (some (["SELECT u;", "SELECT v;"].map remove_ending_semicolon)) "binary" none)
      ∧ read_sql (.fed [("a", "postgresql://h")]) (.s "SELECT x;") "pandas" none none none none
          = .ok (.readSql2 (remove_ending_semicolon "SELECT x;") [("a", "postgresql://h")])
      ∧ read_sql (.s "mysql://h") (.l ["SELECT x;;"]) "pandas" none none none none
          = .ok (.readSql "mysql://h" "pandas"
              (some [remove_ending_semicolon (remove_ending_semicolon "SELECT x;;")])
              "binary" none)) := by
  have H1 := C10_strip_once "SELECT x" "mysql://h" ["SELECT u;", "SELECT v;"]
    [("a", "postgresql://h")] none "mysql://h" "binary"
  have H2 := C10_strip_once "SELECT x;" "mysql://h" ["SELECT u;", "SELECT v;"]
    [("a", "postgresql://h")] none "mysql://h" "binary"
  have H3 := C10_strip_once "SELECT x;;" "mysql://h" ["SELECT u;", "SELECT v;"]
    [("a", "postgresql://h")] none "mysql://h" "binary"
  exact ⟨⟨by decide, by decide, by decide⟩,
    H1.1 "SELECT x",
    H1.2.1 (by decide),
    H2.2.2.1 (by decide),
    H2.2.2.2.1 (by decide) (by decide),
    H2.2.2.2.2.1,
    H3.2.2.2.2.2 (by decide)⟩
